import Mathlib

/-!
Verification of the CloudFormation S3 auto-empty hook
(`src/lambda-hooks/empty-s3-bucket/index.py`).

The Python module has two functions:

* `empty_bucket(bucket_name)` — deletes all current objects and then all
  object versions of an S3 bucket, returning the response of the
  `objects.delete()` call;
* `lambda_handler(event, context)` — validates the inbound CloudFormation
  hook event (provenance fields, invocation point, nested bucket-name path)
  and, on success, empties the named bucket.

We embed the module shallowly:

* a JSON-like value type `JVal` models the loosely typed event payload;
  `dget` is Python's `dict.get`, `ditem` is `dict[key]` (raising `KeyError`),
  `jindex` is subscripting an arbitrary value (raising `TypeError` when the
  value is not a dict);
* Python exceptions become the error side of `Except PyErr`;
* the S3 backend becomes an explicit `S3State` (an association list of
  bucket names to bucket contents); per-object and per-version deletes are
  total functions (S3 `DeleteObject` on an absent key is not an error), and
  the boto3 collection `delete()` calls are folds of those primitives over
  the listed keys/versions.
-/

/-- JSON-like values appearing in the inbound Lambda event. -/
inductive JVal where
  | str (s : String) : JVal
  | obj (d : List (String × JVal)) : JVal
  | null : JVal

/-- A Python dict with string keys, as an association list. -/
abbrev Dict := List (String × JVal)

/-- Python `d.get(k)`: `None` when the key is absent. -/
def dget (d : Dict) (k : String) : Option JVal :=
  (d.find? (fun p => p.1 == k)).map Prod.snd

/-- Python truthiness of `d.get(k)`: `None`, the empty string and the empty
dict are falsy; everything else occurring in events is truthy. -/
def truthy : Option JVal → Bool
  | none => false
  | some (.str s) => !(s == "")
  | some (.obj d) => !d.isEmpty
  | some .null => false

/-- Errors the S3 layer can raise (a stand-in for botocore exceptions:
`NoSuchBucket` when the bucket does not exist, parameter validation when the
bucket name is not a string). -/
inductive S3Err where
  | noSuchBucket (name : String) : S3Err
  | paramValidation : S3Err

/-- Python exceptions that can escape the handler. -/
inductive PyErr where
  | keyError (k : String) : PyErr
  | typeError : PyErr
  | s3Error (e : S3Err) : PyErr

/-- Python `d[k]` on a dict: raises `KeyError(k)` when the key is absent. -/
def ditem (d : Dict) (k : String) : Except PyErr JVal :=
  match dget d k with
  | some v => .ok v
  | none => .error (.keyError k)

/-- Python `v[k]` on an arbitrary value: subscripting a non-dict value with a
string key raises `TypeError`, never `KeyError`. -/
def jindex (v : JVal) (k : String) : Except PyErr JVal :=
  match v with
  | .obj d => ditem d k
  | _ => .error .typeError

mutual

/-- Python `repr` of a `JVal` (used by `str` on non-string values). -/
def JVal.pyRepr : JVal → String
  | .str s => "\x27" ++ s ++ "\x27"
  | .null => "None"
  | .obj d => "\x7b" ++ pyReprEntries d ++ "\x7d"

/-- `repr` of the entries of a dict, comma separated. -/
def pyReprEntries : List (String × JVal) → String
  | [] => ""
  | (k, v) :: rest =>
      "\x27" ++ k ++ "\x27: " ++ JVal.pyRepr v ++
        (if rest.isEmpty then "" else ", " ++ pyReprEntries rest)

end

/-- Python `str` of an optional value, as interpolated by an f-string:
`None` prints as `None`, a string prints as itself, a dict via `repr`. -/
def pyStr : Option JVal → String
  | none => "None"
  | some (.str s) => s
  | some v => v.pyRepr

/-- The message of the provenance-validation failure. -/
def authErrMsg : String :=
  "This Lambda function can only be invoked by CloudFormation Hooks"

/-- The message of the invocation-point failure, naming the received value. -/
def phaseErrMsg (v : Option JVal) : String :=
  "This Lambda function is only authorized for DELETE_PRE_PROVISION operations, received: " ++
    pyStr v

/-- Python `f"\x7berr\x7d"` for `err : KeyError`: the missing key in quotes. -/
def keyErrMsg (k : String) : String := "\x27" ++ k ++ "\x27"

/-- A current S3 object (latest version), identified by its key. -/
structure S3Object where
  key : String

/-- A historical object version (or delete marker) in a versioned bucket. -/
structure ObjectVersion where
  key : String
  versionId : String

/-- The contents of one bucket: current objects and historical versions. -/
structure Bucket where
  objects : List S3Object
  versions : List ObjectVersion

/-- The S3 backend: the existing buckets and their contents. -/
structure S3State where
  buckets : List (String × Bucket)

/-- Look a bucket up by name; `none` when the bucket does not exist. -/
def S3State.getBucket (s : S3State) (name : String) : Option Bucket :=
  (s.buckets.find? (fun p => p.1 == name)).map Prod.snd

/-- Replace the contents of an existing bucket. -/
def S3State.setBucket (s : S3State) (name : String) (b : Bucket) : S3State :=
  ⟨s.buckets.map (fun p => if p.1 == name then (name, b) else p)⟩

/-- S3 `DeleteObject` for key `k`: removes the current object with that key.
Deleting an absent key is not an error (the function is total and the bucket
is returned unchanged). -/
def deleteObject (b : Bucket) (k : String) : Bucket :=
  { b with objects := b.objects.filter (fun o => !(o.key == k)) }

/-- S3 `DeleteObject` with an explicit version id: removes that version. -/
def deleteVersion (b : Bucket) (k vid : String) : Bucket :=
  { b with versions := b.versions.filter (fun ov => !(ov.key == k && ov.versionId == vid)) }

/-- boto3 `bucket.objects.delete()`: enumerates the current objects and
deletes each listed key, returning the deleted keys (the delete response). -/
def objectsDelete (b : Bucket) : Bucket × List String :=
  ((b.objects.map S3Object.key).foldl deleteObject b, b.objects.map S3Object.key)

/-- boto3 `bucket.object_versions.delete()`: enumerates the object versions
and deletes each listed (key, versionId) pair. -/
def objectVersionsDelete (b : Bucket) : Bucket :=
  b.versions.foldl (fun acc ov => deleteVersion acc ov.key ov.versionId) b

/-- `empty_bucket(bucket_name)`: `s3.Bucket(name)` itself never fails; the
first collection delete raises `NoSuchBucket` when the bucket does not exist
(and botocore raises a parameter-validation error when the name is not a
string). Otherwise both deletes run and the response of `objects.delete()`
is returned. -/
def empty_bucket (s : S3State) (bucketName : JVal) :
    Except S3Err (S3State × List String) :=
  match bucketName with
  | .str name =>
    match s.getBucket name with
    | none => .error (.noSuchBucket name)
    | some b =>
      let p := objectsDelete b
      let b2 := objectVersionsDelete p.1
      .ok (s.setBucket name b2, p.2)
  | _ => .error .paramValidation

/-- The structured verdict returned to CloudFormation. `errorCode` and
`clientRequestToken` are `none` when the corresponding key is absent from
the returned Python dict. -/
structure Response where
  hookStatus : String
  errorCode : Option String
  message : String
  clientRequestToken : Option JVal

/-- `event["requestData"]["targetModel"]["resourceProperties"]["BucketName"]`,
evaluated left to right; the first failing subscript raises. -/
def extractBucketName (event : Dict) : Except PyErr JVal := do
  let rd ← ditem event "requestData"
  let tm ← jindex rd "targetModel"
  let rp ← jindex tm "resourceProperties"
  jindex rp "BucketName"

/-- Python `x != "DELETE_PRE_PROVISION"` is false exactly when `x` is the
string itself; `None` and non-string values compare unequal. -/
def optJvalEqStr (o : Option JVal) (s : String) : Bool :=
  match o with
  | some (.str t) => t == s
  | _ => false

/-- `lambda_handler(event, context)`: provenance check, invocation-point
check, bucket-name extraction (with `except KeyError`), then
`empty_bucket`.  The result is `.error e` when a Python exception escapes
the handler, `.ok (s, r)` when the handler returns the verdict `r` leaving
the backend in state `s`. -/
def lambda_handler (s3 : S3State) (event : Dict) :
    Except PyErr (S3State × Response) :=
  if !(truthy (dget event "hookTypeName")) ||
      !(truthy (dget event "actionInvocationPoint")) ||
      !(truthy (dget event "clientRequestToken")) then
    .ok (s3, ⟨"FAILURE", some "Unauthorized", authErrMsg, none⟩)
  else if !(optJvalEqStr (dget event "actionInvocationPoint") "DELETE_PRE_PROVISION") then
    match ditem event "clientRequestToken" with
    | .error e => .error e
    | .ok tok =>
      .ok (s3, ⟨"FAILURE", some "Unauthorized",
        phaseErrMsg (dget event "actionInvocationPoint"), some tok⟩)
  else
    match extractBucketName event with
    | .error (.keyError k) =>
      match ditem event "clientRequestToken" with
      | .error e => .error e
      | .ok tok =>
        .ok (s3, ⟨"FAILURE", some "NonCompliant", keyErrMsg k, some tok⟩)
    | .error e => .error e
    | .ok bn =>
      match empty_bucket s3 bn with
      | .error e => .error (.s3Error e)
      | .ok (s3x, _deleteResponse) =>
        match ditem event "clientRequestToken" with
        | .error e => .error e
        | .ok tok => .ok (s3x, ⟨"SUCCESS", none, "compliant", some tok⟩)

/-- A well-formed sample event targeting bucket `my-bucket`. -/
def evOk : Dict :=
  [("hookTypeName", .str "JFTuga::S3::EmptyBucket"),
   ("actionInvocationPoint", .str "DELETE_PRE_PROVISION"),
   ("clientRequestToken", .str "tok-1"),
   ("requestData", .obj
     [("targetModel", .obj
       [("resourceProperties", .obj
         [("BucketName", .str "my-bucket")])])])]

/-- A backend holding `my-bucket` with 3 current objects and 2 versions. -/
def s3Ok : S3State :=
  ⟨[("my-bucket",
     ⟨[⟨"a.txt"⟩, ⟨"b.txt"⟩, ⟨"c.txt"⟩],
      [⟨"a.txt", "v1"⟩, ⟨"a.txt", "v2"⟩]⟩)]⟩

example :
    lambda_handler s3Ok evOk =
      .ok (s3Ok.setBucket "my-bucket" ⟨[], []⟩,
        ⟨"SUCCESS", none, "compliant", some (.str "tok-1")⟩) := by
  rfl

example :
    (s3Ok.setBucket "my-bucket" ⟨[], []⟩).getBucket "my-bucket" =
      some ⟨[], []⟩ := by
  rfl

/-! ### Helper lemmas about the S3 layer -/

/-- Two buckets with equal fields are equal. -/
theorem bucket_eq_of_fields (b c : Bucket) (h1 : b.objects = c.objects)
    (h2 : b.versions = c.versions) : b = c := by
  cases b; cases c; simp_all

/-- Folding `deleteObject` never adds objects: a surviving object was in the
initial bucket and its key was not among the deleted keys. -/
theorem mem_foldl_deleteObject (ks : List String) (b : Bucket) (o : S3Object)
    (h : o ∈ (ks.foldl deleteObject b).objects) :
    o ∈ b.objects ∧ o.key ∉ ks := by
  induction ks generalizing b with
  | nil => simpa using h
  | cons k ks ih =>
    rw [List.foldl_cons] at h
    obtain ⟨hmem, hnot⟩ := ih (deleteObject b k) h
    rw [deleteObject, List.mem_filter] at hmem
    obtain ⟨hmem, hne⟩ := hmem
    refine ⟨hmem, ?_⟩
    intro hk
    rcases List.mem_cons.mp hk with hk | hk
    · rw [hk] at hne; simp at hne
    · exact hnot hk

/-- Folding `deleteObject` leaves the versions untouched. -/
theorem foldl_deleteObject_versions (ks : List String) (b : Bucket) :
    (ks.foldl deleteObject b).versions = b.versions := by
  induction ks generalizing b with
  | nil => rfl
  | cons k ks ih => rw [List.foldl_cons, ih]; rfl

/-- `objects.delete()` removes every current object. -/
theorem objectsDelete_objects (b : Bucket) : (objectsDelete b).1.objects = [] := by
  rw [List.eq_nil_iff_forall_not_mem]
  intro o ho
  obtain ⟨hmem, hk⟩ := mem_foldl_deleteObject _ _ _ ho
  exact hk (List.mem_map_of_mem S3Object.key hmem)

/-- `objects.delete()` leaves the historical versions untouched. -/
theorem objectsDelete_fst (b : Bucket) : (objectsDelete b).1 = ⟨[], b.versions⟩ :=
  bucket_eq_of_fields _ _ (objectsDelete_objects b) (foldl_deleteObject_versions _ _)

/-- Folding version deletion never adds versions: a surviving version was in
the initial bucket and matches none of the enumerated versions. -/
theorem mem_foldl_deleteVersion (vs : List ObjectVersion) (b : Bucket)
    (ov : ObjectVersion)
    (h : ov ∈ (vs.foldl (fun acc v => deleteVersion acc v.key v.versionId) b).versions) :
    ov ∈ b.versions ∧ ∀ v ∈ vs, ¬(ov.key = v.key ∧ ov.versionId = v.versionId) := by
  induction vs generalizing b with
  | nil => simpa using h
  | cons v vs ih =>
    rw [List.foldl_cons] at h
    obtain ⟨hmem, hnot⟩ := ih (deleteVersion b v.key v.versionId) h
    rw [deleteVersion, List.mem_filter] at hmem
    obtain ⟨hmem, hne⟩ := hmem
    refine ⟨hmem, ?_⟩
    intro w hw
    rcases List.mem_cons.mp hw with hw | hw
    · subst hw
      intro hc
      rw [hc.1, hc.2] at hne
      simp at hne
    · exact hnot w hw

/-- Folding version deletion leaves the current objects untouched. -/
theorem foldl_deleteVersion_objects (vs : List ObjectVersion) (b : Bucket) :
    (vs.foldl (fun acc v => deleteVersion acc v.key v.versionId) b).objects =
      b.objects := by
  induction vs generalizing b with
  | nil => rfl
  | cons v vs ih => rw [List.foldl_cons, ih]; rfl

/-- `object_versions.delete()` removes every historical version. -/
theorem objectVersionsDelete_versions (b : Bucket) :
    (objectVersionsDelete b).versions = [] := by
  rw [List.eq_nil_iff_forall_not_mem]
  intro ov ho
  obtain ⟨hmem, hall⟩ := mem_foldl_deleteVersion _ _ _ ho
  exact hall ov hmem ⟨rfl, rfl⟩

/-- `object_versions.delete()` leaves the current objects untouched. -/
theorem objectVersionsDelete_objects (b : Bucket) :
    (objectVersionsDelete b).objects = b.objects :=
  foldl_deleteVersion_objects _ _

/-- `empty_bucket` on an existing bucket succeeds, leaves the bucket with no
objects and no versions, and returns the keys that `objects.delete()`
deleted. -/
theorem empty_bucket_spec (s : S3State) (n : String) (b : Bucket)
    (h : s.getBucket n = some b) :
    empty_bucket s (.str n) =
      .ok (s.setBucket n ⟨[], []⟩, b.objects.map S3Object.key) := by
  have hb2 : objectVersionsDelete (objectsDelete b).1 = ⟨[], []⟩ := by
    refine bucket_eq_of_fields _ _ ?_ (objectVersionsDelete_versions _)
    rw [objectVersionsDelete_objects, objectsDelete_objects]
  rw [empty_bucket, h]
  simp only [hb2]
  rfl

/-- Updating every entry whose key matches `n` makes the first match `(n, b)`,
provided some entry matched before the update. -/
theorem find?_map_setEntry (l : List (String × Bucket)) (n : String) (b : Bucket)
    (h : (l.find? (fun p => p.1 == n)).isSome) :
    (l.map (fun p => if p.1 == n then (n, b) else p)).find? (fun p => p.1 == n) =
      some (n, b) := by
  induction l with
  | nil => simp at h
  | cons p t ih =>
    cases hm : (p.1 == n) with
    | true =>
      simp only [List.map_cons, hm, if_true]
      simp [List.find?_cons_of_pos]
    | false =>
      rw [List.find?_cons_of_neg _ (by simp [hm])] at h
      simp only [List.map_cons, hm, Bool.false_eq_true, if_false]
      rw [List.find?_cons_of_neg _ (by simp [hm])]
      exact ih h

/-- Overwriting an existing bucket makes `getBucket` return the new value. -/
theorem getBucket_setBucket_self (s : S3State) (n : String) (b c : Bucket)
    (h : s.getBucket n = some c) :
    (s.setBucket n b).getBucket n = some b := by
  have hs : ((s.buckets.find? (fun p => p.1 == n)).isSome) := by
    rw [S3State.getBucket] at h
    cases hf : s.buckets.find? (fun p => p.1 == n) with
    | none => rw [hf] at h; simp at h
    | some q => rfl
  rw [S3State.getBucket, S3State.setBucket, find?_map_setEntry _ _ _ hs]
  rfl

/-! ### Branch lemmas about `lambda_handler` -/

/-- When a provenance field is falsy, the handler returns the generic
Unauthorized verdict without a token. -/
theorem handler_auth_failure (s3 : S3State) (event : Dict)
    (h : (!truthy (dget event "hookTypeName") ||
          !truthy (dget event "actionInvocationPoint") ||
          !truthy (dget event "clientRequestToken")) = true) :
    lambda_handler s3 event =
      .ok (s3, ⟨"FAILURE", some "Unauthorized", authErrMsg, none⟩) := by
  rw [lambda_handler, if_pos h]

/-- When the provenance fields are truthy but the invocation point is not the
string DELETE_PRE_PROVISION, the handler returns the Unauthorized verdict
naming the received value, with the token echoed. -/
theorem handler_phase_failure (s3 : S3State) (event : Dict) (tok : JVal)
    (h1 : truthy (dget event "hookTypeName") = true)
    (h2 : truthy (dget event "actionInvocationPoint") = true)
    (h3 : dget event "clientRequestToken" = some tok)
    (h3t : truthy (some tok) = true)
    (hne : optJvalEqStr (dget event "actionInvocationPoint") "DELETE_PRE_PROVISION" = false) :
    lambda_handler s3 event =
      .ok (s3, ⟨"FAILURE", some "Unauthorized",
        phaseErrMsg (dget event "actionInvocationPoint"), some tok⟩) := by
  have hdi : ditem event "clientRequestToken" = .ok tok := by rw [ditem, h3]
  rw [lambda_handler, if_neg (by simp [h1, h2, h3, h3t]), if_pos (by simp [hne])]
  simp only [hdi]

/-- When validation passes but a key along the bucket-name path is missing,
the handler returns the NonCompliant verdict with the quoted key as message
and the token echoed. -/
theorem handler_keyerror_failure (s3 : S3State) (event : Dict) (tok : JVal)
    (k : String)
    (h1 : truthy (dget event "hookTypeName") = true)
    (h2 : dget event "actionInvocationPoint" = some (.str "DELETE_PRE_PROVISION"))
    (h3 : dget event "clientRequestToken" = some tok)
    (h3t : truthy (some tok) = true)
    (h4 : extractBucketName event = .error (.keyError k)) :
    lambda_handler s3 event =
      .ok (s3, ⟨"FAILURE", some "NonCompliant", keyErrMsg k, some tok⟩) := by
  have hdi : ditem event "clientRequestToken" = .ok tok := by rw [ditem, h3]
  have h2t : truthy (dget event "actionInvocationPoint") = true := by rw [h2]; rfl
  have h2e : optJvalEqStr (dget event "actionInvocationPoint")
      "DELETE_PRE_PROVISION" = true := by rw [h2]; rfl
  rw [lambda_handler, if_neg (by simp [h1, h2t, h3, h3t]),
    if_neg (by simp [h2e])]
  simp only [h4, hdi]

/-- When validation passes and `empty_bucket` raises, the exception escapes
the handler unconverted. -/
theorem handler_delete_fault (s3 : S3State) (event : Dict) (tok : JVal)
    (bn : JVal) (e : S3Err)
    (h1 : truthy (dget event "hookTypeName") = true)
    (h2 : dget event "actionInvocationPoint" = some (.str "DELETE_PRE_PROVISION"))
    (h3 : dget event "clientRequestToken" = some tok)
    (h3t : truthy (some tok) = true)
    (h4 : extractBucketName event = .ok bn)
    (h5 : empty_bucket s3 bn = .error e) :
    lambda_handler s3 event = .error (.s3Error e) := by
  have h2t : truthy (dget event "actionInvocationPoint") = true := by rw [h2]; rfl
  have h2e : optJvalEqStr (dget event "actionInvocationPoint")
      "DELETE_PRE_PROVISION" = true := by rw [h2]; rfl
  rw [lambda_handler, if_neg (by simp [h1, h2t, h3, h3t]),
    if_neg (by simp [h2e])]
  simp only [h4, h5]

/-- When everything passes and the bucket exists, the handler empties the
bucket and returns the compliant verdict with the token echoed. -/
theorem handler_success (s3 : S3State) (event : Dict) (tok : JVal)
    (name : String) (b : Bucket)
    (h1 : truthy (dget event "hookTypeName") = true)
    (h2 : dget event "actionInvocationPoint" = some (.str "DELETE_PRE_PROVISION"))
    (h3 : dget event "clientRequestToken" = some tok)
    (h3t : truthy (some tok) = true)
    (h4 : extractBucketName event = .ok (.str name))
    (h5 : s3.getBucket name = some b) :
    lambda_handler s3 event =
      .ok (s3.setBucket name ⟨[], []⟩,
        ⟨"SUCCESS", none, "compliant", some tok⟩) := by
  have hdi : ditem event "clientRequestToken" = .ok tok := by rw [ditem, h3]
  have heb := empty_bucket_spec s3 name b h5
  have h2t : truthy (dget event "actionInvocationPoint") = true := by rw [h2]; rfl
  have h2e : optJvalEqStr (dget event "actionInvocationPoint")
      "DELETE_PRE_PROVISION" = true := by rw [h2]; rfl
  rw [lambda_handler, if_neg (by simp [h1, h2t, h3, h3t]),
    if_neg (by simp [h2e])]
  simp only [h4, heb, hdi]

/-- A truthy optional value is a `some`. -/
theorem truthy_some (o : Option JVal) (h : truthy o = true) :
    ∃ v, o = some v ∧ truthy (some v) = true := by
  cases o with
  | none => simp [truthy] at h
  | some v => exact ⟨v, rfl, h⟩

/-- The Python equality test against a string succeeds only on that string. -/
theorem optJvalEqStr_true (o : Option JVal) (s : String)
    (h : optJvalEqStr o s = true) : o = some (.str s) := by
  cases o with
  | none => simp [optJvalEqStr] at h
  | some v =>
    cases v with
    | str t => simp [optJvalEqStr] at h; rw [h]
    | obj d => simp [optJvalEqStr] at h
    | null => simp [optJvalEqStr] at h

/-! ### Sample events and states used as witnesses -/

/-- An event whose `clientRequestToken` is absent. -/
def evNoTok : Dict :=
  [("hookTypeName", .str "JFTuga::S3::EmptyBucket"),
   ("actionInvocationPoint", .str "DELETE_PRE_PROVISION")]

/-- An event invoked at the wrong lifecycle point. -/
def evWrongPhase : Dict :=
  [("hookTypeName", .str "JFTuga::S3::EmptyBucket"),
   ("actionInvocationPoint", .str "CREATE_PRE_PROVISION"),
   ("clientRequestToken", .str "tok-3")]

/-- A valid DELETE_PRE_PROVISION event whose `requestData` lacks
`targetModel`. -/
def evNoPath : Dict :=
  [("hookTypeName", .str "JFTuga::S3::EmptyBucket"),
   ("actionInvocationPoint", .str "DELETE_PRE_PROVISION"),
   ("clientRequestToken", .str "tok-4"),
   ("requestData", .obj [("somethingElse", .str "x")])]

/-! ### The claims -/

/-- C1: for every well-formed event (all three provenance fields non-empty,
`actionInvocationPoint` equal to DELETE_PRE_PROVISION, and the full path
`requestData.targetModel.resourceProperties.BucketName` present) naming a
bucket with current objects and historical versions, after the handler runs
the bucket contains zero current objects and zero historical versions, and
the handler returns hookStatus SUCCESS with message compliant and the echoed
clientRequestToken. -/
theorem C1_wellformed_delete_empties_bucket
    (s3 : S3State) (event : Dict) (tok : JVal) (name : String) (b : Bucket)
    (h1 : truthy (dget event "hookTypeName") = true)
    (h2 : dget event "actionInvocationPoint" = some (.str "DELETE_PRE_PROVISION"))
    (h3 : dget event "clientRequestToken" = some tok)
    (h3t : truthy (some tok) = true)
    (h4 : extractBucketName event = .ok (.str name))
    (h5 : s3.getBucket name = some b) :
    lambda_handler s3 event =
      .ok (s3.setBucket name ⟨[], []⟩,
        ⟨"SUCCESS", none, "compliant", some tok⟩) ∧
    (s3.setBucket name ⟨[], []⟩).getBucket name = some ⟨[], []⟩ :=
  ⟨handler_success s3 event tok name b h1 h2 h3 h3t h4 h5,
   getBucket_setBucket_self s3 name ⟨[], []⟩ b h5⟩

/-- Witness for C1 on a concrete event and a bucket with 3 objects and 2
versions. -/
theorem C1_witness :
    lambda_handler s3Ok evOk =
      .ok (s3Ok.setBucket "my-bucket" ⟨[], []⟩,
        ⟨"SUCCESS", none, "compliant", some (.str "tok-1")⟩) ∧
    (s3Ok.setBucket "my-bucket" ⟨[], []⟩).getBucket "my-bucket" =
      some ⟨[], []⟩ :=
  C1_wellformed_delete_empties_bucket s3Ok evOk (.str "tok-1") "my-bucket"
    ⟨[⟨"a.txt"⟩, ⟨"b.txt"⟩, ⟨"c.txt"⟩], [⟨"a.txt", "v1"⟩, ⟨"a.txt", "v2"⟩]⟩
    rfl rfl rfl rfl rfl rfl

/-- C2: for every event in which any of hookTypeName, actionInvocationPoint
or clientRequestToken is missing or empty, the handler returns hookStatus
FAILURE with errorCode Unauthorized and the message stating it may only be
invoked by the CloudFormation hook mechanism, and the response contains no
clientRequestToken field. -/
theorem C2_missing_provenance_unauthorized (s3 : S3State) (event : Dict)
    (h : truthy (dget event "hookTypeName") = false ∨
         truthy (dget event "actionInvocationPoint") = false ∨
         truthy (dget event "clientRequestToken") = false) :
    lambda_handler s3 event =
      .ok (s3, ⟨"FAILURE", some "Unauthorized", authErrMsg, none⟩) := by
  apply handler_auth_failure
  rcases h with h | h | h <;> simp [h]

/-- Witness for C2 on an event with no token. -/
theorem C2_witness :
    lambda_handler (S3State.mk []) evNoTok =
      .ok (S3State.mk [], ⟨"FAILURE", some "Unauthorized", authErrMsg, none⟩) :=
  C2_missing_provenance_unauthorized (S3State.mk []) evNoTok
    (Or.inr (Or.inr rfl))

/-- C3: for every event that passes the three-field authorization check but
whose actionInvocationPoint is not exactly DELETE_PRE_PROVISION, the handler
returns hookStatus FAILURE with errorCode Unauthorized, a message naming the
received actionInvocationPoint value, and the echoed clientRequestToken. -/
theorem C3_wrong_phase_unauthorized (s3 : S3State) (event : Dict) (tok : JVal)
    (h1 : truthy (dget event "hookTypeName") = true)
    (h2 : truthy (dget event "actionInvocationPoint") = true)
    (h3 : dget event "clientRequestToken" = some tok)
    (h3t : truthy (some tok) = true)
    (hne : optJvalEqStr (dget event "actionInvocationPoint")
      "DELETE_PRE_PROVISION" = false) :
    lambda_handler s3 event =
      .ok (s3, ⟨"FAILURE", some "Unauthorized",
        phaseErrMsg (dget event "actionInvocationPoint"), some tok⟩) :=
  handler_phase_failure s3 event tok h1 h2 h3 h3t hne

/-- Witness for C3 on a CREATE_PRE_PROVISION event. -/
theorem C3_witness :
    lambda_handler (S3State.mk []) evWrongPhase =
      .ok (S3State.mk [], ⟨"FAILURE", some "Unauthorized",
        phaseErrMsg (dget evWrongPhase "actionInvocationPoint"),
        some (.str "tok-3")⟩) :=
  C3_wrong_phase_unauthorized (S3State.mk []) evWrongPhase (.str "tok-3")
    rfl rfl rfl rfl rfl

/-- C4: for every event that passes the authorization and phase checks but
where some dictionary key along the path
`requestData.targetModel.resourceProperties.BucketName` is absent, the
handler returns hookStatus FAILURE with errorCode NonCompliant, a message
naming the missing key, and the echoed clientRequestToken. -/
theorem C4_missing_bucket_path_noncompliant (s3 : S3State) (event : Dict)
    (tok : JVal) (k : String)
    (h1 : truthy (dget event "hookTypeName") = true)
    (h2 : dget event "actionInvocationPoint" = some (.str "DELETE_PRE_PROVISION"))
    (h3 : dget event "clientRequestToken" = some tok)
    (h3t : truthy (some tok) = true)
    (h4 : extractBucketName event = .error (.keyError k)) :
    lambda_handler s3 event =
      .ok (s3, ⟨"FAILURE", some "NonCompliant", keyErrMsg k, some tok⟩) :=
  handler_keyerror_failure s3 event tok k h1 h2 h3 h3t h4

/-- Witness for C4 on an event lacking `targetModel`. -/
theorem C4_witness :
    lambda_handler (S3State.mk []) evNoPath =
      .ok (S3State.mk [], ⟨"FAILURE", some "NonCompliant",
        keyErrMsg "targetModel", some (.str "tok-4")⟩) :=
  C4_missing_bucket_path_noncompliant (S3State.mk []) evNoPath
    (.str "tok-4") "targetModel" rfl rfl rfl rfl rfl

/-- C5: for every event that passes all three validation steps, any
exception raised by `empty_bucket` propagates out of the handler as an
unhandled fault; the handler never converts a deletion-layer failure into a
structured FAILURE verdict. -/
theorem C5_delete_fault_propagates (s3 : S3State) (event : Dict) (tok : JVal)
    (bn : JVal) (e : S3Err)
    (h1 : truthy (dget event "hookTypeName") = true)
    (h2 : dget event "actionInvocationPoint" = some (.str "DELETE_PRE_PROVISION"))
    (h3 : dget event "clientRequestToken" = some tok)
    (h3t : truthy (some tok) = true)
    (h4 : extractBucketName event = .ok bn)
    (h5 : empty_bucket s3 bn = .error e) :
    lambda_handler s3 event = .error (.s3Error e) :=
  handler_delete_fault s3 event tok bn e h1 h2 h3 h3t h4 h5

/-- Witness for C5: the well-formed event against a backend with no buckets
makes the NoSuchBucket fault escape the handler. -/
theorem C5_witness :
    lambda_handler (S3State.mk []) evOk =
      .error (.s3Error (.noSuchBucket "my-bucket")) :=
  C5_delete_fault_propagates (S3State.mk []) evOk (.str "tok-1")
    (.str "my-bucket") (.noSuchBucket "my-bucket") rfl rfl rfl rfl rfl rfl

/-- C6: for every event and every response the handler returns, if the
response contains a clientRequestToken field then its value equals the
clientRequestToken field of the inbound event. -/
theorem C6_response_token_echoes_request (s3 : S3State) (event : Dict)
    (s2 : S3State) (r : Response) (t : JVal)
    (h : lambda_handler s3 event = .ok (s2, r))
    (ht : r.clientRequestToken = some t) :
    dget event "clientRequestToken" = some t := by
  rw [lambda_handler] at h
  by_cases hc : (!truthy (dget event "hookTypeName") ||
      !truthy (dget event "actionInvocationPoint") ||
      !truthy (dget event "clientRequestToken")) = true
  · rw [if_pos hc] at h
    simp only [Except.ok.injEq, Prod.mk.injEq] at h
    rw [← h.2] at ht
    simp at ht
  · rw [if_neg hc] at h
    cases hd : dget event "clientRequestToken" with
    | none =>
      exfalso
      apply hc
      rw [hd]
      simp [truthy]
    | some tok =>
      have hdi : ditem event "clientRequestToken" = .ok tok := by rw [ditem, hd]
      by_cases hp : (!(optJvalEqStr (dget event "actionInvocationPoint")
          "DELETE_PRE_PROVISION")) = true
      · rw [if_pos hp] at h
        simp only [hdi] at h
        simp only [Except.ok.injEq, Prod.mk.injEq] at h
        rw [← h.2] at ht
        exact ht
      · rw [if_neg hp] at h
        cases hx : extractBucketName event with
        | error pe =>
          cases pe with
          | keyError k =>
            simp only [hx, hdi] at h
            simp only [Except.ok.injEq, Prod.mk.injEq] at h
            rw [← h.2] at ht
            exact ht
          | typeError =>
            simp only [hx] at h
            exact Except.noConfusion h
          | s3Error e =>
            simp only [hx] at h
            exact Except.noConfusion h
        | ok bn =>
          simp only [hx] at h
          cases he : empty_bucket s3 bn with
          | error e =>
            simp only [he] at h
            exact Except.noConfusion h
          | ok pr =>
            obtain ⟨s3x, dr⟩ := pr
            simp only [he, hdi] at h
            simp only [Except.ok.injEq, Prod.mk.injEq] at h
            rw [← h.2] at ht
            exact ht

/-- Witness for C6 on the successful concrete run. -/
theorem C6_witness :
    dget evOk "clientRequestToken" = some (.str "tok-1") :=
  C6_response_token_echoes_request s3Ok evOk
    (s3Ok.setBucket "my-bucket" ⟨[], []⟩)
    ⟨"SUCCESS", none, "compliant", some (.str "tok-1")⟩
    (.str "tok-1") rfl rfl

/-- C7: the bulk-delete operation is idempotent: when a first invocation of
`empty_bucket` succeeds, a second invocation on the resulting state raises no
error and leaves the bucket with no objects and no versions; and deleting an
already-absent object is not an error (it is a total no-op). -/
theorem C7_empty_bucket_idempotent (s : S3State) (n : String)
    (s1 : S3State) (r : List String)
    (h : empty_bucket s (.str n) = .ok (s1, r)) :
    (empty_bucket s1 (.str n) = .ok (s1.setBucket n ⟨[], []⟩, []) ∧
      (s1.setBucket n ⟨[], []⟩).getBucket n = some ⟨[], []⟩) ∧
    (∀ (b : Bucket) (k : String), (∀ o ∈ b.objects, ¬(o.key = k)) →
      deleteObject b k = b) := by
  constructor
  · have hex : ∃ b, s.getBucket n = some b := by
      rw [empty_bucket] at h
      cases hg : s.getBucket n with
      | none =>
        rw [hg] at h
        exact Except.noConfusion h
      | some b => exact ⟨b, rfl⟩
    obtain ⟨b, hg⟩ := hex
    have hspec := empty_bucket_spec s n b hg
    rw [hspec] at h
    simp only [Except.ok.injEq, Prod.mk.injEq] at h
    have hs1 : s1.getBucket n = some ⟨[], []⟩ := by
      rw [← h.1]
      exact getBucket_setBucket_self s n ⟨[], []⟩ b hg
    have hspec2 := empty_bucket_spec s1 n ⟨[], []⟩ hs1
    exact ⟨by simpa using hspec2,
      getBucket_setBucket_self s1 n ⟨[], []⟩ ⟨[], []⟩ hs1⟩
  · intro b k hk
    rw [deleteObject]
    have hfilter : b.objects.filter (fun o => !(o.key == k)) = b.objects := by
      apply List.filter_eq_self.mpr
      intro o ho
      simpa using hk o ho
    rw [hfilter]

/-- Witness for C7: emptying the concrete bucket twice. -/
theorem C7_witness :
    empty_bucket (s3Ok.setBucket "my-bucket" ⟨[], []⟩) (.str "my-bucket") =
      .ok ((s3Ok.setBucket "my-bucket" ⟨[], []⟩).setBucket "my-bucket" ⟨[], []⟩,
        []) ∧
    ((s3Ok.setBucket "my-bucket" ⟨[], []⟩).setBucket "my-bucket"
        ⟨[], []⟩).getBucket "my-bucket" = some ⟨[], []⟩ :=
  (C7_empty_bucket_idempotent s3Ok "my-bucket"
    (s3Ok.setBucket "my-bucket" ⟨[], []⟩)
    ["a.txt", "b.txt", "c.txt"] rfl).1

/-- The event of the C8 counterexample: provenance fields `hookTypeName` and
`clientRequestToken` are present and truthy, but `actionInvocationPoint` is
the empty string — a case the claim explicitly covers. -/
def evC8 : Dict :=
  [("hookTypeName", .str "JFTuga::S3::EmptyBucket"),
   ("actionInvocationPoint", .str ""),
   ("clientRequestToken", .str "tok-8")]

/-- C8 counterexample: on an event whose actionInvocationPoint is the empty
string (≠ DELETE_PRE_PROVISION) and whose clientRequestToken is "tok-8",
the handler takes the provenance branch and returns the generic Unauthorized
verdict whose clientRequestToken field is absent — the token is not echoed
and the message does not name the received value, contradicting the claim. -/
theorem C8_counterexample :
    lambda_handler (S3State.mk []) evC8 =
      .ok (S3State.mk [],
        ⟨"FAILURE", some "Unauthorized", authErrMsg, none⟩) ∧
    (Option.isSome ((⟨"FAILURE", some "Unauthorized", authErrMsg,
        none⟩ : Response).clientRequestToken)) = false :=
  ⟨rfl, rfl⟩

/-- C8 amended: for every event whose actionInvocationPoint differs from
DELETE_PRE_PROVISION the handler returns FAILURE with errorCode
Unauthorized; when the three provenance fields are all truthy the token is
echoed and the received value is named in the message, but when any
provenance field is missing or empty (in particular when the
actionInvocationPoint itself is empty or absent) the response carries the
generic provenance message and no clientRequestToken field. -/
theorem C8_phase_failures_amended (s3 : S3State) (event : Dict) (tok : JVal)
    (hne : optJvalEqStr (dget event "actionInvocationPoint")
      "DELETE_PRE_PROVISION" = false) :
    ((truthy (dget event "hookTypeName") = true ∧
      truthy (dget event "actionInvocationPoint") = true ∧
      dget event "clientRequestToken" = some tok ∧
      truthy (some tok) = true) →
      lambda_handler s3 event =
        .ok (s3, ⟨"FAILURE", some "Unauthorized",
          phaseErrMsg (dget event "actionInvocationPoint"), some tok⟩)) ∧
    ((truthy (dget event "hookTypeName") = false ∨
      truthy (dget event "actionInvocationPoint") = false ∨
      truthy (dget event "clientRequestToken") = false) →
      lambda_handler s3 event =
        .ok (s3, ⟨"FAILURE", some "Unauthorized", authErrMsg, none⟩)) := by
  constructor
  · intro hpass
    exact handler_phase_failure s3 event tok hpass.1 hpass.2.1 hpass.2.2.1
      hpass.2.2.2 hne
  · intro hfail
    apply handler_auth_failure
    rcases hfail with hf | hf | hf <;> simp [hf]

/-- Witness for the amended C8 on a CREATE_PRE_PROVISION event. -/
theorem C8_witness :
    lambda_handler (S3State.mk []) evWrongPhase =
      .ok (S3State.mk [], ⟨"FAILURE", some "Unauthorized",
        phaseErrMsg (dget evWrongPhase "actionInvocationPoint"),
        some (.str "tok-3")⟩) :=
  (C8_phase_failures_amended (S3State.mk []) evWrongPhase (.str "tok-3")
    rfl).1 ⟨rfl, rfl, rfl, rfl⟩

/-- C9: for every event that fails the authorization check, the phase check,
or the bucket-name extraction, the handler returns its FAILURE verdict with
the backend state unchanged — `empty_bucket` is never invoked, so the target
bucket contents are untouched on every validation failure. -/
theorem C9_validation_failure_no_delete (s3 : S3State) (event : Dict)
    (h : truthy (dget event "hookTypeName") = false ∨
         truthy (dget event "actionInvocationPoint") = false ∨
         truthy (dget event "clientRequestToken") = false ∨
         optJvalEqStr (dget event "actionInvocationPoint")
           "DELETE_PRE_PROVISION" = false ∨
         (∃ k, extractBucketName event = .error (.keyError k))) :
    ∃ r, lambda_handler s3 event = .ok (s3, r) ∧ r.hookStatus = "FAILURE" := by
  cases ha : truthy (dget event "hookTypeName") with
  | false => exact ⟨_, handler_auth_failure s3 event (by rw [ha]; rfl), rfl⟩
  | true =>
    cases hb : truthy (dget event "actionInvocationPoint") with
    | false => exact ⟨_, handler_auth_failure s3 event (by rw [ha, hb]; rfl), rfl⟩
    | true =>
      cases hcv : truthy (dget event "clientRequestToken") with
      | false =>
        exact ⟨_, handler_auth_failure s3 event (by rw [ha, hb, hcv]; rfl), rfl⟩
      | true =>
        obtain ⟨tok, hd, hdt⟩ := truthy_some _ hcv
        cases hp : optJvalEqStr (dget event "actionInvocationPoint")
            "DELETE_PRE_PROVISION" with
        | false =>
          exact ⟨_, handler_phase_failure s3 event tok ha hb hd hdt hp, rfl⟩
        | true =>
          have h2 := optJvalEqStr_true _ _ hp
          rcases h with hf | hf | hf | hf | ⟨k, hf⟩
          · simp [hf] at ha
          · simp [hf] at hb
          · simp [hf] at hcv
          · simp [hf] at hp
          · exact ⟨_,
              handler_keyerror_failure s3 event tok k ha h2 hd hdt hf, rfl⟩

/-- Witness for C9 on the event lacking `targetModel`: the backend is
unchanged and the verdict is a FAILURE. -/
theorem C9_witness :
    ∃ r, lambda_handler s3Ok evNoPath = .ok (s3Ok, r) ∧
      r.hookStatus = "FAILURE" :=
  C9_validation_failure_no_delete s3Ok evNoPath
    (Or.inr (Or.inr (Or.inr (Or.inr ⟨"targetModel", rfl⟩))))

/-- The event of claim C10: the three provenance fields and the invocation
point are valid, but `requestData` holds a string, not a dict, so
`event["requestData"]["targetModel"]` raises `TypeError`. -/
def evC10 : Dict :=
  [("hookTypeName", .str "JFTuga::S3::EmptyBucket"),
   ("actionInvocationPoint", .str "DELETE_PRE_PROVISION"),
   ("clientRequestToken", .str "tok-10"),
   ("requestData", .str "not-a-dict")]

/-- C10: on an event that passes the authorization and phase checks but whose
`requestData` is present and not a mapping, subscripting raises `TypeError`,
which the `except KeyError` handler does not catch: the handler returns no
structured NonCompliant verdict and the exception propagates as an unhandled
fault. -/
theorem C10_typeerror_propagates :
    lambda_handler (S3State.mk []) evC10 = .error PyErr.typeError := rfl
